import Mathlib

/-!
Shallow embedding of the Flux Realism image-generator app (src/app.py):
the generation request payload, the credential installation into the
process environment, and the one-shot submission handler with its
result rendering and error handling.
-/

/-- Request payload assembled by generate_image (app.py lines 35-44). -/
structure Payload where
  prompt : String
  image_size : String
  num_inference_steps : Nat
  guidance_scale : ℚ
  num_images : Nat
  enable_safety_checker : Bool
  strength : ℚ
  output_format : String
deriving DecidableEq

/-- Process environment: a map from variable names to optional values. -/
def Env : Type := String → Option String

/-- Overwrite of one environment variable, os.environ[k] = v. -/
def setEnv (env : Env) (k v : String) : Env :=
  fun x => if x = k then some v else env x

/-- Observable events of one generate_image call, in program order. -/
inductive Event where
  | setEnvVar (key val : String)
  | remoteCall (payload : Payload)
deriving DecidableEq

/-- Outcome of running generate_image: the environment after the call,
the ordered event trace, and the payload handed to the remote client. -/
structure GenCall where
  env : Env
  trace : List Event
  payload : Payload

/-- generate_image (app.py lines 29-48): sets os.environ["FAL_KEY"] to the
given api_key, then issues the single remote call with the fixed-shape
payload and returns the raw result. -/
def generate_image (prompt image_size : String) (num_steps : Nat)
    (guidance_scale strength : ℚ) (api_key : String) (env : Env) : GenCall :=
  let env2 := setEnv env "FAL_KEY" api_key
  let p : Payload :=
    { prompt := prompt,
      image_size := image_size,
      num_inference_steps := num_steps,
      guidance_scale := guidance_scale,
      num_images := 1,
      enable_safety_checker := false,
      strength := strength,
      output_format := "jpeg" }
  { env := env2,
    trace := [Event.setEnvVar "FAL_KEY" api_key, Event.remoteCall p],
    payload := p }

/-- Entry of the response images list: an object with a url field. -/
structure ImageEntry where
  url : String
deriving DecidableEq

/-- Response dictionary; images is none when the "images" key is absent. -/
structure ResultDict where
  images : Option (List ImageEntry)
deriving DecidableEq

/-- Truthiness test of app.py line 151, namely
result and "images" in result and len(result["images"]) > 0,
returning result["images"][0]["url"] exactly when the test passes.
A none argument models a falsy (None or empty-dict) result. -/
def firstImageUrl : Option ResultDict → Option String
  | none => none
  | some r =>
    match r.images with
    | some (e :: _) => some e.url
    | _ => none

/-- Containment of pat as a contiguous sublist of the second argument. -/
def hasSubstrList (pat : List Char) : List Char → Bool
  | [] => pat.isEmpty
  | c :: t => pat.isPrefixOf (c :: t) || hasSubstrList pat t

/-- Substring containment on strings. -/
def strContainsSub (s pat : String) : Bool :=
  hasSubstrList pat.data s.data

/-- Lowercasing of a string, character by character, as str.lower does
on ASCII message text. -/
def strToLower (s : String) : String :=
  String.mk (s.data.map Char.toLower)

/-- Classification test of app.py line 175:
"unauthorized" in str(e).lower(). -/
def isUnauthorizedMsg (e : String) : Bool :=
  strContainsSub (strToLower e) "unauthorized"

/-- Error text of app.py line 171. -/
def emptyResultMsg : String := "No image was generated. Please try again."

/-- Generic error text of app.py line 174. -/
def genericErrorMsg (e : String) : String := "Error generating image: " ++ e

/-- Credential hint of app.py line 176. -/
def invalidKeyMsg : String :=
  "Invalid API key. Please check your API key and try again."

/-- Status text of app.py line 148. -/
def startingMsg : String := "🚀 Starting generation..."

/-- Status text of app.py line 153. -/
def completeMsg : String := "✨ Generation complete!"

/-- Final rendered state of one run of the submission handler:
the last content of the status placeholder, the image shown (by url),
the download link, the error messages emitted in order, and how many
remote generation calls were dispatched. -/
structure Rendered where
  statusText : Option String
  displayedImage : Option String
  downloadLink : Option String
  errors : List String
  remoteCalls : Nat
deriving DecidableEq

/-- Body of the try block (app.py lines 148-169), parameterised by the
outcome of the remote call and by whether the image fetch/decode step
raises. An Except.error value is an exception escaping the block. -/
def submissionBody (remote : Except String (Option ResultDict))
    (displayErr : Option String) : Except String Rendered :=
  match remote with
  | Except.error e => Except.error e
  | Except.ok result =>
    match firstImageUrl result with
    | some url =>
      match displayErr with
      | some e => Except.error e
      | none =>
        Except.ok
          { statusText := some completeMsg, displayedImage := some url,
            downloadLink := some url, errors := [], remoteCalls := 1 }
    | none =>
      Except.ok
        { statusText := some startingMsg, displayedImage := none,
          downloadLink := none, errors := [emptyResultMsg], remoteCalls := 1 }

/-- One run of the submission handler (app.py lines 146-176): the guard
on the button press, non-empty prompt and non-empty key; the try block;
and the except clause converting any escaped exception into the generic
error message plus, for unauthorized messages, the credential hint. -/
def runSubmission (pressed : Bool) (prompt api_key : String)
    (remote : Except String (Option ResultDict))
    (displayErr : Option String) : Rendered :=
  if pressed = true ∧ prompt ≠ "" ∧ api_key ≠ "" then
    match submissionBody remote displayErr with
    | Except.ok r => r
    | Except.error e =>
      { statusText := some startingMsg, displayedImage := none,
        downloadLink := none,
        errors := genericErrorMsg e ::
          (if isUnauthorizedMsg e = true then [invalidKeyMsg] else []),
        remoteCalls := 1 }
  else
    { statusText := none, displayedImage := none, downloadLink := none,
      errors := [], remoteCalls := 0 }

/-- Disabled flag of the generate button (app.py line 130):
disabled exactly when the stored api key is the empty string. -/
def generateButtonDisabled (api_key : String) : Bool :=
  api_key == ""

/-- Environment that is empty except for a previously installed key. -/
def envWithOldKey : Env :=
  fun k => if k = "FAL_KEY" then some "old" else none

/-- C2: for every call, the payload handed to the remote service is
exactly the record of the prompt, size, steps, guidance and strength
arguments together with num_images = 1, enable_safety_checker = false
and output_format = "jpeg"; in particular, for prompt "a red fox in
snow", image_size "square", steps 28, guidance 3.5, strength 1.0 and
the non-empty credential "abc123", the payload is exactly the record
stated in the spec scenario. -/
theorem C2_payload_exact :
    (∀ (prompt image_size : String) (num_steps : Nat)
      (guidance_scale strength : ℚ) (api_key : String) (env : Env),
      (generate_image prompt image_size num_steps guidance_scale strength
          api_key env).payload =
        { prompt := prompt, image_size := image_size,
          num_inference_steps := num_steps, guidance_scale := guidance_scale,
          num_images := 1, enable_safety_checker := false,
          strength := strength, output_format := "jpeg" }) ∧
    ("abc123" : String) ≠ "" ∧
    (generate_image "a red fox in snow" "square" 28 (3.5 : ℚ) (1.0 : ℚ)
        "abc123" envWithOldKey).payload =
      { prompt := "a red fox in snow", image_size := "square",
        num_inference_steps := 28, guidance_scale := (3.5 : ℚ),
        num_images := 1, enable_safety_checker := false,
        strength := (1.0 : ℚ), output_format := "jpeg" } := by
  refine ⟨fun _ _ _ _ _ _ _ => rfl, by decide, rfl⟩

/-- C3: whenever the guard passes and the remote call succeeds with a
result whose images list has at least one entry, the handler displays
exactly the url of the first entry, offers it as the download link, and
sets the final status to the completion message, regardless of how many
further entries the list has. -/
theorem C3_first_url_displayed (prompt api_key : String)
    (hp : prompt ≠ "") (hk : api_key ≠ "")
    (e : ImageEntry) (rest : List ImageEntry) :
    (runSubmission true prompt api_key
        (Except.ok (some ⟨some (e :: rest)⟩)) none).displayedImage =
      some e.url ∧
    (runSubmission true prompt api_key
        (Except.ok (some ⟨some (e :: rest)⟩)) none).downloadLink =
      some e.url ∧
    (runSubmission true prompt api_key
        (Except.ok (some ⟨some (e :: rest)⟩)) none).statusText =
      some completeMsg := by
  unfold runSubmission
  rw [if_pos ⟨rfl, hp, hk⟩]
  exact ⟨rfl, rfl, rfl⟩

/-- C3 witness: concrete two-image response displays the first url. -/
theorem C3_first_url_displayed_witness :
    (runSubmission true "a red fox in snow" "abc123"
        (Except.ok (some ⟨some [⟨"http://img/a.jpeg"⟩, ⟨"http://img/b.jpeg"⟩]⟩))
        none).displayedImage = some "http://img/a.jpeg" :=
  (C3_first_url_displayed "a red fox in snow" "abc123"
    (by decide) (by decide) ⟨"http://img/a.jpeg"⟩ [⟨"http://img/b.jpeg"⟩]).1

/-- C4: whenever the guard passes and the remote call returns a result
whose images list is empty, the emitted error messages are exactly the
single message "No image was generated. Please try again." and no image
is displayed. -/
theorem C4_empty_images_message (prompt api_key : String)
    (hp : prompt ≠ "") (hk : api_key ≠ "") (displayErr : Option String) :
    (runSubmission true prompt api_key
        (Except.ok (some ⟨some []⟩)) displayErr).errors = [emptyResultMsg] ∧
    (runSubmission true prompt api_key
        (Except.ok (some ⟨some []⟩)) displayErr).displayedImage = none := by
  unfold runSubmission
  rw [if_pos ⟨rfl, hp, hk⟩]
  exact ⟨rfl, rfl⟩

/-- C4 witness: the scenario remote = ok with images = [] yields the
error message and no image. -/
theorem C4_empty_images_message_witness :
    (runSubmission true "a red fox in snow" "abc123"
        (Except.ok (some ⟨some []⟩)) none).errors =
      ["No image was generated. Please try again."] :=
  (C4_empty_images_message "a red fox in snow" "abc123"
    (by decide) (by decide) none).1

/-- C5: whenever the guard passes and the remote call raises an
exception with message e, the emitted error messages are exactly the
generic message followed by the invalid-key hint when e contains the
case-insensitive substring "unauthorized", and exactly the generic
message alone otherwise. -/
theorem C5_unauthorized_hint (prompt api_key e : String)
    (hp : prompt ≠ "") (hk : api_key ≠ "") (displayErr : Option String) :
    (runSubmission true prompt api_key (Except.error e) displayErr).errors =
      if isUnauthorizedMsg e = true then [genericErrorMsg e, invalidKeyMsg]
      else [genericErrorMsg e] := by
  unfold runSubmission
  rw [if_pos ⟨rfl, hp, hk⟩]
  cases h : isUnauthorizedMsg e <;> simp [submissionBody, h]

/-- C5 witness: the message "401 Unauthorized" produces both the generic
error and the invalid-key hint, while "connection reset" produces only
the generic error. -/
theorem C5_unauthorized_hint_witness :
    (runSubmission true "p" "k" (Except.error "401 Unauthorized")
        none).errors =
      [genericErrorMsg "401 Unauthorized", invalidKeyMsg] ∧
    (runSubmission true "p" "k" (Except.error "connection reset")
        none).errors = [genericErrorMsg "connection reset"] := by
  constructor
  · rw [C5_unauthorized_hint "p" "k" "401 Unauthorized"
      (by decide) (by decide) none]
    decide
  · rw [C5_unauthorized_hint "p" "k" "connection reset"
      (by decide) (by decide) none]
    decide

/-- Helper: the generic error message, which always starts with the
letter E, is never equal to the invalid-key hint, which starts with I. -/
theorem genericErrorMsg_ne_invalidKeyMsg (e : String) :
    genericErrorMsg e ≠ invalidKeyMsg := by
  cases e with
  | mk l =>
    intro h
    have h2 : (genericErrorMsg (String.mk l)).data.head? =
        invalidKeyMsg.data.head? := by rw [h]
    have h3 : (genericErrorMsg (String.mk l)).data.head? = some 'E' := rfl
    have h4 : invalidKeyMsg.data.head? = some 'I' := rfl
    rw [h3, h4] at h2
    exact absurd h2 (by decide)

/-- Helper: every normally completed try-block run dispatched exactly
one remote call. -/
theorem submissionBody_remoteCalls (remote : Except String (Option ResultDict))
    (displayErr : Option String) (r : Rendered)
    (h : submissionBody remote displayErr = Except.ok r) : r.remoteCalls = 1 := by
  rcases remote with e | result
  · simp [submissionBody] at h
  · rcases hf : firstImageUrl result with _ | url
    · simp [submissionBody, hf] at h
      subst h
      rfl
    · rcases displayErr with _ | e
      · simp [submissionBody, hf] at h
        subst h
        rfl
      · simp [submissionBody, hf] at h

/-- C1 counterexample: with an empty prompt and the non-empty key "k"
the claim requires the generate button to be disabled, but the disabled
flag of app.py line 130 depends only on the key, so the button is
enabled. -/
theorem C1_counterexample :
    (("" : String) = "" ∨ ("k" : String) = "") ∧
    generateButtonDisabled "k" = false :=
  ⟨Or.inl rfl, by decide⟩

/-- C1 amended: the submit button is disabled whenever the credential is
empty, and whenever the prompt or the credential is empty no generation
call is dispatched; the button itself is not disabled by an empty
prompt. -/
theorem C1_amended_no_dispatch (pressed : Bool) (prompt api_key : String)
    (remote : Except String (Option ResultDict)) (displayErr : Option String) :
    (api_key = "" → generateButtonDisabled api_key = true) ∧
    (prompt = "" ∨ api_key = "" →
      (runSubmission pressed prompt api_key remote displayErr).remoteCalls = 0) := by
  constructor
  · intro h
    subst h
    rfl
  · intro h
    unfold runSubmission
    rw [if_neg]
    rintro ⟨-, hp, hk⟩
    rcases h with h | h
    · exact hp h
    · exact hk h

/-- C1 witness: the empty key disables the button, and an empty prompt
with the non-empty key "k" dispatches no remote call. -/
theorem C1_amended_no_dispatch_witness :
    generateButtonDisabled "" = true ∧
    (runSubmission true "" "k" (Except.ok none) none).remoteCalls = 0 :=
  ⟨(C1_amended_no_dispatch true "" "" (Except.ok none) none).1 rfl,
   (C1_amended_no_dispatch true "" "k" (Except.ok none) none).2 (Or.inl rfl)⟩

/-- C6: one run of the submission handler dispatches at most one remote
call (no automatic retry), and every exception e escaping the try block
while the guard holds is converted by the single outermost except clause
into a user-visible message list headed by the generic error text, which
occurs in it exactly once; runSubmission is total, so no error
terminates the run and a fresh submission is always possible. -/
theorem C6_error_policy (pressed : Bool) (prompt api_key : String)
    (remote : Except String (Option ResultDict)) (displayErr : Option String) :
    (runSubmission pressed prompt api_key remote displayErr).remoteCalls ≤ 1 ∧
    (∀ e, submissionBody remote displayErr = Except.error e →
      pressed = true ∧ prompt ≠ "" ∧ api_key ≠ "" →
      (runSubmission pressed prompt api_key remote displayErr).errors.head? =
        some (genericErrorMsg e) ∧
      (runSubmission pressed prompt api_key remote displayErr).errors.count
        (genericErrorMsg e) = 1) := by
  constructor
  · unfold runSubmission
    by_cases hg : pressed = true ∧ prompt ≠ "" ∧ api_key ≠ ""
    · rw [if_pos hg]
      rcases hb : submissionBody remote displayErr with e | r
      · exact Nat.le_refl 1
      · rw [submissionBody_remoteCalls remote displayErr r hb]
    · rw [if_neg hg]
      exact Nat.zero_le 1
  · intro e hb hg
    unfold runSubmission
    rw [if_pos hg, hb]
    refine ⟨rfl, ?_⟩
    cases h : isUnauthorizedMsg e
    · simp [h, List.count_cons]
    · simp [h, List.count_cons, genericErrorMsg_ne_invalidKeyMsg e]

/-- C6 witness: a concrete remote failure "boom" is rendered as exactly
one generic error message. -/
theorem C6_error_policy_witness :
    (runSubmission true "p" "k" (Except.error "boom") none).errors.head? =
      some (genericErrorMsg "boom") ∧
    (runSubmission true "p" "k" (Except.error "boom") none).errors.count
      (genericErrorMsg "boom") = 1 :=
  (C6_error_policy true "p" "k" (Except.error "boom") none).2 "boom" rfl
    ⟨rfl, by decide, by decide⟩

/-- C7: on every generate_image call the credential is written to the
FAL_KEY environment variable, the write precedes the remote call in the
event trace, the value written is exactly the credential argument and it
overwrites (without restoring) whatever value was there before, while
every other environment variable is untouched. -/
theorem C7_credential_installed (prompt image_size : String) (num_steps : Nat)
    (guidance_scale strength : ℚ) (api_key : String) (env : Env) :
    (generate_image prompt image_size num_steps guidance_scale strength
      api_key env).env "FAL_KEY" = some api_key ∧
    (generate_image prompt image_size num_steps guidance_scale strength
      api_key env).trace =
      [Event.setEnvVar "FAL_KEY" api_key,
       Event.remoteCall (generate_image prompt image_size num_steps
         guidance_scale strength api_key env).payload] ∧
    (∀ k, k ≠ "FAL_KEY" →
      (generate_image prompt image_size num_steps guidance_scale strength
        api_key env).env k = env k) := by
  refine ⟨?_, rfl, ?_⟩
  · simp [generate_image, setEnv]
  · intro k hk
    simp [generate_image, setEnv, hk]

/-- C7 witness: installing "new" over an environment holding "old"
yields FAL_KEY = "new" and leaves HOME unchanged. -/
theorem C7_credential_installed_witness :
    (generate_image "p" "square" 28 (3.5 : ℚ) (1 : ℚ) "new"
      envWithOldKey).env "FAL_KEY" = some "new" ∧
    (generate_image "p" "square" 28 (3.5 : ℚ) (1 : ℚ) "new"
      envWithOldKey).env "HOME" = envWithOldKey "HOME" :=
  ⟨(C7_credential_installed "p" "square" 28 (3.5 : ℚ) (1 : ℚ) "new"
      envWithOldKey).1,
   (C7_credential_installed "p" "square" 28 (3.5 : ℚ) (1 : ℚ) "new"
      envWithOldKey).2.2 "HOME" (by decide)⟩

/-- C8 counterexample: generate_image does change local state beyond the
remote call: with a prior FAL_KEY value "old" and credential "new", the
FAL_KEY entry differs after generate returns. -/
theorem C8_counterexample :
    ¬ ((generate_image "p" "square" 28 (3.5 : ℚ) (1 : ℚ) "new"
        envWithOldKey).env "FAL_KEY" = envWithOldKey "FAL_KEY") := by
  intro h
  simp [generate_image, setEnv, envWithOldKey] at h

/-- C8 amended: generate_image has no side effects beyond the remote
call, the progress callbacks and the overwrite of the FAL_KEY
environment variable: every other environment entry is unchanged after
generate returns, and the event trace holds nothing but that single
write and the single remote call (no persistence, no other writes). -/
theorem C8_amended_frame (prompt image_size : String) (num_steps : Nat)
    (guidance_scale strength : ℚ) (api_key : String) (env : Env)
    (k : String) (hk : k ≠ "FAL_KEY") :
    (generate_image prompt image_size num_steps guidance_scale strength
      api_key env).env k = env k ∧
    (generate_image prompt image_size num_steps guidance_scale strength
      api_key env).trace =
      [Event.setEnvVar "FAL_KEY" api_key,
       Event.remoteCall (generate_image prompt image_size num_steps
         guidance_scale strength api_key env).payload] := by
  refine ⟨?_, rfl⟩
  simp [generate_image, setEnv, hk]

/-- C8 witness: the HOME entry is unchanged by a concrete call. -/
theorem C8_amended_frame_witness :
    (generate_image "p" "square" 28 (3.5 : ℚ) (1 : ℚ) "new"
      envWithOldKey).env "HOME" = envWithOldKey "HOME" :=
  (C8_amended_frame "p" "square" 28 (3.5 : ℚ) (1 : ℚ) "new" envWithOldKey
    "HOME" (by decide)).1

/-- C9: a falsy (None) result, a result without the images key and a
result with an empty images list all take the same else branch: the
single EmptyResult message is shown and no image is displayed. -/
theorem C9_falsy_shapes (prompt api_key : String)
    (hp : prompt ≠ "") (hk : api_key ≠ "") (displayErr : Option String)
    (r : Option ResultDict)
    (h : r = none ∨ r = some ⟨none⟩ ∨ r = some ⟨some []⟩) :
    (runSubmission true prompt api_key (Except.ok r) displayErr).errors =
      [emptyResultMsg] ∧
    (runSubmission true prompt api_key (Except.ok r) displayErr).displayedImage =
      none := by
  unfold runSubmission
  rw [if_pos ⟨rfl, hp, hk⟩]
  rcases h with h | h | h <;> subst h <;> exact ⟨rfl, rfl⟩

/-- C9 witness: all three falsy shapes produce the EmptyResult message. -/
theorem C9_falsy_shapes_witness :
    (runSubmission true "p" "k" (Except.ok none) none).errors =
      [emptyResultMsg] ∧
    (runSubmission true "p" "k" (Except.ok (some ⟨none⟩)) none).errors =
      [emptyResultMsg] ∧
    (runSubmission true "p" "k" (Except.ok (some ⟨some []⟩)) none).errors =
      [emptyResultMsg] :=
  ⟨(C9_falsy_shapes "p" "k" (by decide) (by decide) none none (Or.inl rfl)).1,
   (C9_falsy_shapes "p" "k" (by decide) (by decide) none (some ⟨none⟩)
     (Or.inr (Or.inl rfl))).1,
   (C9_falsy_shapes "p" "k" (by decide) (by decide) none (some ⟨some []⟩)
     (Or.inr (Or.inr rfl))).1⟩

/-- C10: with a non-empty credential and an empty prompt, the generate
button is enabled, and pressing it is a silent no-op: no remote call is
dispatched, no status message and no error message is rendered. -/
theorem C10_empty_prompt_silent (api_key : String) (hk : api_key ≠ "")
    (remote : Except String (Option ResultDict)) (displayErr : Option String) :
    generateButtonDisabled api_key = false ∧
    runSubmission true "" api_key remote displayErr =
      { statusText := none, displayedImage := none, downloadLink := none,
        errors := [], remoteCalls := 0 } := by
  constructor
  · simpa [generateButtonDisabled] using hk
  · unfold runSubmission
    rw [if_neg]
    rintro ⟨-, hp, -⟩
    exact hp rfl

/-- C10 witness: with key "k" and an empty prompt, pressing the button
renders nothing and dispatches nothing. -/
theorem C10_empty_prompt_silent_witness :
    generateButtonDisabled "k" = false ∧
    runSubmission true "" "k" (Except.ok none) none =
      { statusText := none, displayedImage := none, downloadLink := none,
        errors := [], remoteCalls := 0 } :=
  C10_empty_prompt_silent "k" (by decide) (Except.ok none) none
